import Mathlib

/-!
Verification of the HTML-table-to-PDF converter (`api/index.py`).

The Python `HTMLTableParser` subclasses the standard library's streaming
HTML tokenizer, which turns the raw markup string into a sequence of
callbacks: `handle_starttag(tag, attrs)`, `handle_endtag(tag)` and
`handle_data(data)`, with tag names already lower-cased and attributes
dropped by the subclass.  We embed the parser at exactly that interface: an
input is a list of `HtmlEvent`s (the callback stream the external tokenizer
emits for the markup string), and each handler is a pure function on the
parser state, mirroring the Python method field for field.

Lengths are modelled in centimetres as exact rationals: ReportLab's `cm`
unit is a constant scale factor into points, and `A4` is 210mm x 297mm,
i.e. 21cm x 29.7cm, so margins `2*cm` and column widths `6*cm`, `11*cm`
become the rationals 2, 6 and 11.
-/

namespace PdfApi

/-- One callback event delivered by the streaming HTML tokenizer
(`html.parser.HTMLParser`): a start tag, an end tag, or a run of text
data.  Tag names arrive lower-cased; attributes are ignored by the
subclass and therefore omitted. -/
inductive HtmlEvent where
  | tagOpen (tag : String)
  | tagClose (tag : String)
  | text (data : String)
deriving DecidableEq, Repr

/-- A parsed table cell, as stored by `handle_endtag` for `td`:
the dict `{'text': cell_text, 'is_bold': self.is_bold}`. -/
structure Cell where
  text : String
  is_bold : Bool
deriving DecidableEq, Repr

/-- The mutable state of `HTMLTableParser` (`__init__`, lines 16-25):
`table_data`, `current_row`, `current_cell`, and the five boolean flags. -/
structure ParserState where
  table_data : List (List Cell)
  current_row : List Cell
  current_cell : List String
  in_table : Bool
  in_row : Bool
  in_cell : Bool
  is_bold : Bool
  in_pre : Bool
deriving DecidableEq, Repr

/-- The freshly constructed parser: empty accumulators, all flags false. -/
def initState : ParserState :=
  { table_data := [], current_row := [], current_cell := [],
    in_table := false, in_row := false, in_cell := false,
    is_bold := false, in_pre := false }

/-- Characters removed by Python's `str.strip()` with no argument: the six
ASCII whitespace characters (we do not model the rarely relevant non-ASCII
Unicode whitespace, which none of the inputs considered here contain). -/
def isPySpace (c : Char) : Bool :=
  c == ' ' || c == '\t' || c == '\n' || c == '\r' ||
  c == Char.ofNat 11 || c == Char.ofNat 12

/-- Python `s.strip()`: remove leading and trailing whitespace. -/
def pyStrip (s : String) : String :=
  String.mk (((s.data.dropWhile isPySpace).reverse.dropWhile isPySpace).reverse)

/-- `HTMLTableParser.handle_starttag` (lines 27-39). -/
def handle_starttag (s : ParserState) (tag : String) : ParserState :=
  if tag = "table" then { s with in_table := true }
  else if tag = "tr" then { s with in_row := true, current_row := [] }
  else if tag = "td" then { s with in_cell := true, current_cell := [] }
  else if tag = "b" then { s with is_bold := true }
  else if tag = "pre" then { s with in_pre := true }
  else s

/-- `HTMLTableParser.handle_endtag` (lines 41-59).  Note: on `</tr>` the
row is appended only when non-empty (Python truthiness of the list); on
`</td>` the joined cell text is unconditionally `.strip()`-ed and the bold
flag is read at that moment and then cleared. -/
def handle_endtag (s : ParserState) (tag : String) : ParserState :=
  if tag = "table" then { s with in_table := false }
  else if tag = "tr" then
    { s with in_row := false,
             table_data := if s.current_row = [] then s.table_data
                           else s.table_data ++ [s.current_row] }
  else if tag = "td" then
    { s with in_cell := false,
             current_row := s.current_row ++
               [{ text := pyStrip (String.join s.current_cell),
                  is_bold := s.is_bold }],
             is_bold := false }
  else if tag = "b" then { s with is_bold := false }
  else if tag = "pre" then { s with in_pre := false }
  else s

/-- `HTMLTableParser.handle_data` (lines 61-63): text is accumulated only
while inside a cell. -/
def handle_data (s : ParserState) (d : String) : ParserState :=
  if s.in_cell then { s with current_cell := s.current_cell ++ [d] } else s

/-- Dispatch one tokenizer callback to the matching handler. -/
def step (s : ParserState) : HtmlEvent → ParserState
  | .tagOpen t => handle_starttag s t
  | .tagClose t => handle_endtag s t
  | .text d => handle_data s d

/-- `parser.feed(...)` from an arbitrary state: run the callbacks in order. -/
def feed (s : ParserState) : List HtmlEvent → ParserState
  | [] => s
  | e :: evs => feed (step s e) evs

/-- `HTMLTableParser(); parser.feed(html_table)`: the final parser state
for the given event stream. -/
def parse (evs : List HtmlEvent) : ParserState := feed initState evs

/-- A ReportLab `ParagraphStyle`, restricted to the fields the code sets
(lines 89-104).  `textColor` is `none` when the code leaves the default. -/
structure ParagraphStyle where
  fontName : String
  fontSize : ℚ
  textColor : Option String
  spaceAfter : ℚ
deriving DecidableEq, Repr

/-- `header_style` (lines 89-96): Helvetica-Bold 11pt, accent colour. -/
def header_style : ParagraphStyle :=
  { fontName := "Helvetica-Bold", fontSize := 11,
    textColor := some "#2c3e50", spaceAfter := 6 }

/-- `normal_style` (lines 98-104): Helvetica 11pt, default colour. -/
def normal_style : ParagraphStyle :=
  { fontName := "Helvetica", fontSize := 11,
    textColor := none, spaceAfter := 6 }

/-- A ReportLab `Paragraph(text, style)`. -/
structure Paragraph where
  text : String
  style : ParagraphStyle
deriving DecidableEq, Repr

/-- Lines 110-117: each parsed cell becomes a `Paragraph`, with
`header_style` exactly when the cell's `is_bold` flag is set. -/
def build_cell (cell : Cell) : Paragraph :=
  if cell.is_bold then { text := cell.text, style := header_style }
  else { text := cell.text, style := normal_style }

/-- Lines 107-118: the parsed rows converted to ReportLab rows, in order. -/
def build_pdf_rows (table_data : List (List Cell)) : List (List Paragraph) :=
  table_data.map (fun row => row.map build_cell)

/-- The layout handed to ReportLab: the `SimpleDocTemplate` geometry
(lines 76-83) plus the single `Table(pdf_table_data, colWidths=[6*cm, 11*cm])`
(line 121).  The one `colWidths` list is a property of the whole table, so
the same two widths apply to every row by construction, exactly as in
ReportLab.  All lengths are centimetres as exact rationals.  The uniform
`TableStyle` constants (first-column background, grid, 12pt padding, top
vertical alignment) are not needed by any claim and are left out. -/
structure PdfLayout where
  pagesize : ℚ × ℚ
  rightMargin : ℚ
  leftMargin : ℚ
  topMargin : ℚ
  bottomMargin : ℚ
  colWidths : List ℚ
  rows : List (List Paragraph)
deriving DecidableEq, Repr

/-- ReportLab's `A4` page size: 210mm x 297mm, i.e. 21cm x 29.7cm. -/
def A4 : ℚ × ℚ := (21, 297 / 10)

/-- The layout built for a given table model (lines 76-143). -/
def mkLayout (table_data : List (List Cell)) : PdfLayout :=
  { pagesize := A4,
    rightMargin := 2, leftMargin := 2, topMargin := 2, bottomMargin := 2,
    colWidths := [6, 11],
    rows := build_pdf_rows table_data }

/-- `create_pdf_from_table` (lines 65-146): parse the event stream, raise
`ValueError("No table data found in HTML")` when no table data was
collected (Python truthiness of the empty list), otherwise build the
layout that is rendered to the PDF buffer.  The raised exception is
modelled as `Except.error` carrying the exception's message. -/
def create_pdf_from_table (evs : List HtmlEvent) : Except String PdfLayout :=
  let p := parse evs
  if p.table_data = [] then Except.error "No table data found in HTML"
  else Except.ok (mkLayout p.table_data)

/-- A Flask response from the `/api/generate-pdf` route: either a JSON
body with an HTTP status, or a `send_file` of the built PDF layout. -/
inductive HttpResponse where
  | json (status : Nat) (body : List (String × String))
  | file (status : Nat) (mimetype : String) (download_name : String)
      (content : PdfLayout)
deriving DecidableEq, Repr

/-- The HTTP status of a response (`send_file` returns 200). -/
def status_of : HttpResponse → Nat
  | .json s _ => s
  | .file s _ _ _ => s

/-- The JSON body of a response (empty for a file response). -/
def body_of : HttpResponse → List (String × String)
  | .json _ b => b
  | .file _ _ _ _ => []

/-- A caller-attributable (4xx) response. -/
def is_client_error (r : HttpResponse) : Prop :=
  400 ≤ status_of r ∧ status_of r < 500

instance (r : HttpResponse) : Decidable (is_client_error r) := by
  unfold is_client_error; infer_instance

/-- The `except Exception` clause of `generate_pdf` (lines 198-203): any
exception raised inside the route body is answered with HTTP 500 and a
JSON body holding the fixed string plus the exception's `str(e)`. -/
def exception_response (e_msg : String) : HttpResponse :=
  .json 500 [("error", "Failed to generate PDF"), ("details", e_msg)]

/-- The `/api/generate-pdf` route handler `generate_pdf` (lines 159-203).
`htmlTable` is the value of the request body's `htmlTable` field when
present (`none` models a missing body or missing field); `evs` is the
callback stream the external `html.parser` tokenizer emits for that
string.  The only exception the modelled pipeline raises is the
`ValueError` from `create_pdf_from_table`; it is answered by the
`except` clause like every other exception. -/
def generate_pdf (htmlTable : Option String) (evs : List HtmlEvent) :
    HttpResponse :=
  match htmlTable with
  | none =>
      .json 400 [("error",
        "Missing required field \x27htmlTable\x27 in request body")]
  | some s =>
      if pyStrip s = "" then
        .json 400 [("error", "htmlTable cannot be empty")]
      else
        match create_pdf_from_table evs with
        | .ok layout => .file 200 "application/pdf" "report.pdf" layout
        | .error msg => exception_response msg

/-! ### Structured well-formed inputs

To quantify over "an input containing a table whose rows and cells are
properly opened and closed", we generate event streams from a structured
description: a table is a list of rows, a row a list of cells, and a
cell a list of inline pieces (text, bold tags, preformatted tags).  These
generators build inputs for the parser; they embed no source code. -/

/-- An inline piece of cell content: text data or a bold/preformatted tag. -/
inductive Inline where
  | txt (s : String)
  | boldOpen
  | boldClose
  | preOpen
  | preClose
deriving DecidableEq, Repr

/-- The tokenizer event for one inline piece. -/
def Inline.toEvent : Inline → HtmlEvent
  | .txt s => .text s
  | .boldOpen => .tagOpen "b"
  | .boldClose => .tagClose "b"
  | .preOpen => .tagOpen "pre"
  | .preClose => .tagClose "pre"

/-- Events of one properly closed cell: `<td>` content `</td>`. -/
def cellEvents (c : List Inline) : List HtmlEvent :=
  .tagOpen "td" :: (c.map Inline.toEvent ++ [.tagClose "td"])

/-- Events of one properly closed row: `<tr>` cells `</tr>`. -/
def rowEvents (r : List (List Inline)) : List HtmlEvent :=
  .tagOpen "tr" :: ((r.map cellEvents).flatten ++ [.tagClose "tr"])

/-- Events of one properly closed table: `<table>` rows `</table>`. -/
def tableEvents (t : List (List (List Inline))) : List HtmlEvent :=
  .tagOpen "table" :: ((t.map rowEvents).flatten ++ [.tagClose "table"])

/-! ### Concrete event streams used as test inputs -/

/-- The tokenizer events for the spec's two-row example
`<table><tr><td><b>Name</b></td><td>Alice</td></tr><tr><td><b>Age</b></td><td>30</td></tr></table>`. -/
def exampleEvents : List HtmlEvent :=
  [.tagOpen "table",
   .tagOpen "tr",
   .tagOpen "td", .tagOpen "b", .text "Name", .tagClose "b", .tagClose "td",
   .tagOpen "td", .text "Alice", .tagClose "td",
   .tagClose "tr",
   .tagOpen "tr",
   .tagOpen "td", .tagOpen "b", .text "Age", .tagClose "b", .tagClose "td",
   .tagOpen "td", .text "30", .tagClose "td",
   .tagClose "tr",
   .tagClose "table"]

/-- The tokenizer events for `<tr><td>x</td></tr>`: row and cell tags with
no table-open tag anywhere. -/
def noTableEvents : List HtmlEvent :=
  [.tagOpen "tr", .tagOpen "td", .text "x", .tagClose "td", .tagClose "tr"]

/-- The tokenizer events for `<table></table>`. -/
def emptyTableEvents : List HtmlEvent :=
  [.tagOpen "table", .tagClose "table"]

/-- The tokenizer events for `<table><tr><td><pre> x </td></tr></table>`:
the cell closes while preformatted mode is still active. -/
def preCellEvents : List HtmlEvent :=
  [.tagOpen "table", .tagOpen "tr", .tagOpen "td", .tagOpen "pre",
   .text " x ", .tagClose "td", .tagClose "tr", .tagClose "table"]

/-- The tokenizer events for `<table><tr><td>key</td><td>value</td></tr></table>`. -/
def simpleEvents : List HtmlEvent :=
  [.tagOpen "table", .tagOpen "tr",
   .tagOpen "td", .text "key", .tagClose "td",
   .tagOpen "td", .text "value", .tagClose "td",
   .tagClose "tr", .tagClose "table"]

/-! ### Helper lemmas about the parser's transitions -/

/-- Unfolding the `</tr>` branch of `handle_endtag`. -/
theorem step_tr_close (s : ParserState) :
    step s (.tagClose "tr") =
      { s with in_row := false,
               table_data := if s.current_row = [] then s.table_data
                             else s.table_data ++ [s.current_row] } := rfl

/-- Unfolding the `</td>` branch of `handle_endtag`. -/
theorem step_td_close (s : ParserState) :
    step s (.tagClose "td") =
      { s with in_cell := false,
               current_row := s.current_row ++
                 [{ text := pyStrip (String.join s.current_cell),
                    is_bold := s.is_bold }],
               is_bold := false } := rfl

/-- Feeding a concatenation of event streams is sequential composition. -/
theorem feed_append (s : ParserState) (a b : List HtmlEvent) :
    feed s (a ++ b) = feed (feed s a) b := by
  induction a generalizing s with
  | nil => rfl
  | cons e a ih =>
      show feed (step s e) (a ++ b) = feed (feed (step s e) a) b
      exact ih (step s e)

/-- A single transition only ever appends to `table_data`. -/
theorem table_data_mono_step (s : ParserState) (e : HtmlEvent) :
    ∃ t, (step s e).table_data = s.table_data ++ t := by
  cases e with
  | tagOpen tag =>
      refine ⟨[], ?_⟩
      simp only [step, handle_starttag, List.append_nil]
      split_ifs <;> rfl
  | tagClose tag =>
      by_cases htr : tag = "tr"
      · subst htr
        by_cases h : s.current_row = []
        · exact ⟨[], by simp [step_tr_close, h]⟩
        · exact ⟨[s.current_row], by simp [step_tr_close, h]⟩
      · refine ⟨[], ?_⟩
        simp only [step, handle_endtag, List.append_nil]
        split_ifs <;> rfl
  | text d =>
      refine ⟨[], ?_⟩
      simp only [step, handle_data, List.append_nil]
      split_ifs <;> rfl

/-- A whole run only ever appends to `table_data`: whatever rows were
already collected stay, in place, at the front. -/
theorem table_data_mono_feed (s : ParserState) (evs : List HtmlEvent) :
    ∃ t, (feed s evs).table_data = s.table_data ++ t := by
  induction evs generalizing s with
  | nil => exact ⟨[], by simp [feed]⟩
  | cons e evs ih =>
      obtain ⟨t1, h1⟩ := table_data_mono_step s e
      obtain ⟨t2, h2⟩ := ih (step s e)
      exact ⟨t1 ++ t2, by simp [feed, h2, h1]⟩

/-- `create_pdf_from_table` raises its `ValueError` exactly when the parse
collected zero rows; table membership plays no part. -/
theorem create_pdf_error_iff (evs : List HtmlEvent) :
    create_pdf_from_table evs = Except.error "No table data found in HTML" ↔
      (parse evs).table_data = [] := by
  by_cases h : (parse evs).table_data = [] <;>
    simp [create_pdf_from_table, h]

/-- Inline events inside a cell (text, bold tags, preformatted tags) never
touch `current_row`, `table_data` or `in_cell`. -/
theorem inline_step_preserves (s : ParserState) (i : Inline) :
    (step s i.toEvent).current_row = s.current_row ∧
    (step s i.toEvent).table_data = s.table_data ∧
    (step s i.toEvent).in_cell = s.in_cell := by
  cases i with
  | txt d =>
      simp only [Inline.toEvent, step, handle_data]
      split_ifs <;> exact ⟨rfl, rfl, rfl⟩
  | boldOpen => exact ⟨rfl, rfl, rfl⟩
  | boldClose => exact ⟨rfl, rfl, rfl⟩
  | preOpen => exact ⟨rfl, rfl, rfl⟩
  | preClose => exact ⟨rfl, rfl, rfl⟩

/-- A whole run of inline events preserves `current_row`, `table_data`
and `in_cell`. -/
theorem inline_feed_preserves (s : ParserState) (c : List Inline) :
    (feed s (c.map Inline.toEvent)).current_row = s.current_row ∧
    (feed s (c.map Inline.toEvent)).table_data = s.table_data ∧
    (feed s (c.map Inline.toEvent)).in_cell = s.in_cell := by
  induction c generalizing s with
  | nil => exact ⟨rfl, rfl, rfl⟩
  | cons i c ih =>
      have hs := inline_step_preserves s i
      have hf := ih (step s i.toEvent)
      exact ⟨hf.1.trans hs.1, hf.2.1.trans hs.2.1, hf.2.2.trans hs.2.2⟩

/-- Feeding one properly closed cell appends exactly one cell to the
current row and leaves `table_data` untouched. -/
theorem feed_cellEvents (s : ParserState) (c : List Inline) :
    ∃ cell, (feed s (cellEvents c)).current_row = s.current_row ++ [cell] ∧
            (feed s (cellEvents c)).table_data = s.table_data := by
  have h1 : feed s (cellEvents c) =
      step (feed (step s (.tagOpen "td")) (c.map Inline.toEvent))
        (.tagClose "td") := by
    show feed (step s (.tagOpen "td"))
        (c.map Inline.toEvent ++ [.tagClose "td"]) = _
    rw [feed_append]; rfl
  obtain ⟨p1, p2, _⟩ := inline_feed_preserves (step s (.tagOpen "td")) c
  set s2 := feed (step s (.tagOpen "td")) (c.map Inline.toEvent) with hs2
  refine ⟨⟨pyStrip (String.join s2.current_cell), s2.is_bold⟩, ?_, ?_⟩
  · simp only [h1, step_td_close, p1]
    rfl
  · simp only [h1, step_td_close, p2]
    rfl

/-- Feeding a run of properly closed cells appends one parsed cell per
source cell, in order, leaving `table_data` untouched. -/
theorem feed_cells (s : ParserState) (cells : List (List Inline)) :
    ∃ cs : List Cell,
      cs.length = cells.length ∧
      (feed s ((cells.map cellEvents).flatten)).current_row =
        s.current_row ++ cs ∧
      (feed s ((cells.map cellEvents).flatten)).table_data =
        s.table_data := by
  induction cells generalizing s with
  | nil => exact ⟨[], rfl, by simp [feed], rfl⟩
  | cons c cells ih =>
      obtain ⟨cell, h1, h2⟩ := feed_cellEvents s c
      obtain ⟨cs, l1, g1, g2⟩ := ih (feed s (cellEvents c))
      have hsplit : ((c :: cells).map cellEvents).flatten =
          cellEvents c ++ (cells.map cellEvents).flatten := by simp
      refine ⟨cell :: cs, by simp [l1], ?_, ?_⟩
      · rw [hsplit, feed_append, g1, h1]
        simp
      · rw [hsplit, feed_append, g2, h2]

/-- Feeding one properly closed non-empty row appends exactly one
non-empty row to `table_data`. -/
theorem feed_rowEvents (s : ParserState) (r : List (List Inline))
    (h : r ≠ []) :
    ∃ rw0, rw0 ≠ [] ∧
      (feed s (rowEvents r)).table_data = s.table_data ++ [rw0] := by
  have h1 : feed s (rowEvents r) =
      step (feed (step s (.tagOpen "tr")) ((r.map cellEvents).flatten))
        (.tagClose "tr") := by
    show feed (step s (.tagOpen "tr"))
        ((r.map cellEvents).flatten ++ [.tagClose "tr"]) = _
    rw [feed_append]; rfl
  obtain ⟨cs, hl, hcr, htd⟩ := feed_cells (step s (.tagOpen "tr")) r
  have hcr' : (feed (step s (.tagOpen "tr"))
      ((r.map cellEvents).flatten)).current_row = cs := by
    rw [hcr]; rfl
  have htd' : (feed (step s (.tagOpen "tr"))
      ((r.map cellEvents).flatten)).table_data = s.table_data := htd
  have hne : cs ≠ [] := by
    intro hc
    apply h
    have hlen : r.length = 0 := by rw [← hl, hc]; rfl
    exact List.eq_nil_of_length_eq_zero hlen
  refine ⟨cs, hne, ?_⟩
  rw [h1, step_tr_close]
  simp [hcr', htd', hne]

/-- If some row in a run of properly closed rows has at least one cell,
`table_data` is non-empty afterwards. -/
theorem feed_rows_nonempty (s : ParserState)
    (rows : List (List (List Inline))) (h : ∃ r ∈ rows, r ≠ []) :
    (feed s ((rows.map rowEvents).flatten)).table_data ≠ [] := by
  induction rows generalizing s with
  | nil =>
      obtain ⟨r, hr, _⟩ := h
      exact absurd hr (List.not_mem_nil r)
  | cons r0 rest ih =>
      have hsplit : ((r0 :: rest).map rowEvents).flatten =
          rowEvents r0 ++ (rest.map rowEvents).flatten := by simp
      rw [hsplit, feed_append]
      obtain ⟨r, hmem, hne⟩ := h
      rcases List.mem_cons.mp hmem with heq | hmem2
      · subst heq
        obtain ⟨rw0, _, htd⟩ := feed_rowEvents s r hne
        obtain ⟨t, ht⟩ := table_data_mono_feed (feed s (rowEvents r))
          ((rest.map rowEvents).flatten)
        rw [ht, htd]
        simp
      · exact ih (feed s (rowEvents r0)) ⟨r, hmem2, hne⟩

/-! ### Claims -/

/-- Claim C1, code evaluated at the failing input: for the spec's two-row
example every cell — including the two wholly `<b>`-wrapped ones — is
recorded with `is_bold = false`, because the `</b>` handler clears the
bold flag before the `</td>` handler reads it.  The spec requires
`emphasis = true` for the `Name` and `Age` cells. -/
theorem c1_example_bold_cells_lost :
    (parse exampleEvents).table_data =
      [[{ text := "Name", is_bold := false },
        { text := "Alice", is_bold := false }],
       [{ text := "Age", is_bold := false },
        { text := "30", is_bold := false }]] := rfl

/-- Claim C2: on every `</td>` transition the parser records the cell's
emphasis as the bold flag's value at the moment of cell-close (a cell
opened unbold but closed with bold still active records `true`), appends
the cell to the current row, and resets the flag to `false`, so emphasis
never carries into the next cell even when no `</b>` intervenes. -/
theorem c2_cell_close_semantics :
    (∀ s : ParserState, step s (.tagClose "td") =
        { s with in_cell := false,
                 current_row := s.current_row ++
                   [{ text := pyStrip (String.join s.current_cell),
                      is_bold := s.is_bold }],
                 is_bold := false }) ∧
    (∀ (s : ParserState) (d : String),
        (feed s [.tagOpen "td", .tagOpen "b", .text d,
                 .tagClose "td"]).current_row =
          s.current_row ++
            [{ text := pyStrip (String.join [d]), is_bold := true }]) ∧
    (∀ (s : ParserState) (d : String),
        (feed s [.tagClose "td", .tagOpen "td", .text d,
                 .tagClose "td"]).current_row =
          (s.current_row ++
            [{ text := pyStrip (String.join s.current_cell),
               is_bold := s.is_bold }]) ++
            [{ text := pyStrip (String.join [d]), is_bold := false }]) :=
  ⟨fun _ => rfl, fun _ _ => rfl, fun _ _ => rfl⟩

/-- Claim C3, amended: the conversion raises its single input error
exactly when zero rows were collected, whether or not a table-open tag was
ever observed; table membership is tracked but never consulted, so row and
cell tags without any table-open tag still parse to a populated model. -/
theorem c3_error_iff_zero_rows (evs : List HtmlEvent) :
    create_pdf_from_table evs =
        Except.error "No table data found in HTML" ↔
      (parse evs).table_data = [] :=
  create_pdf_error_iff evs

/-- Claim C3, counterexample: `<tr><td>x</td></tr>` contains no table-open
tag, yet it parses to a populated one-row model and the conversion
succeeds — refuting that parsing fails whenever no table-opening construct
appears. -/
theorem c3_counterexample :
    HtmlEvent.tagOpen "table" ∉ noTableEvents ∧
    (parse noTableEvents).table_data =
      [[{ text := "x", is_bold := false }]] ∧
    create_pdf_from_table noTableEvents =
      Except.ok (mkLayout [[{ text := "x", is_bold := false }]]) :=
  ⟨by decide, rfl, rfl⟩

/-- Claim C4, amended: an input whose parse collects zero rows makes
`create_pdf_from_table` raise `ValueError("No table data found in HTML")`,
but the route's catch-all `except` clause surfaces it as HTTP 500 — a
server-error status with the generic message plus the exception's text —
not as a caller-error (4xx) status. -/
theorem c4_empty_table_surfaces_as_500 (s : String) (evs : List HtmlEvent)
    (h1 : pyStrip s ≠ "") (h2 : (parse evs).table_data = []) :
    generate_pdf (some s) evs =
      HttpResponse.json 500
        [("error", "Failed to generate PDF"),
         ("details", "No table data found in HTML")] ∧
    ¬ is_client_error (generate_pdf (some s) evs) := by
  have herr : create_pdf_from_table evs =
      Except.error "No table data found in HTML" :=
    (create_pdf_error_iff evs).mpr h2
  refine ⟨?_, ?_⟩ <;>
    simp [generate_pdf, h1, herr, exception_response, is_client_error,
          status_of]

/-- Claim C4, witness: the amended theorem applied to `<table></table>`. -/
theorem c4_witness :
    generate_pdf (some "<table></table>") emptyTableEvents =
      HttpResponse.json 500
        [("error", "Failed to generate PDF"),
         ("details", "No table data found in HTML")] ∧
    ¬ is_client_error
        (generate_pdf (some "<table></table>") emptyTableEvents) :=
  c4_empty_table_surfaces_as_500 "<table></table>" emptyTableEvents
    (by decide) rfl

/-- Claim C4, counterexample: for `<table></table>` the failure reaches
the caller with status 500, which is not in the caller-error (4xx) status
category — refuting that an empty table is never surfaced as a
server/internal error. -/
theorem c4_counterexample :
    status_of (generate_pdf (some "<table></table>") emptyTableEvents)
        = 500 ∧
    ¬ is_client_error
        (generate_pdf (some "<table></table>") emptyTableEvents) :=
  ⟨rfl, by decide⟩

/-- Claim C5, amended: on every `</td>` the recorded text is the in-order
concatenation of the cell's data chunks with leading and trailing
whitespace trimmed — unconditionally: the preformatted flag is tracked but
never consulted, so the same trimming applies when preformatted mode is
active at cell-close. -/
theorem c5_text_always_trimmed (s : ParserState) :
    ((step s (.tagClose "td")).current_row =
      s.current_row ++
        [{ text := pyStrip (String.join s.current_cell),
           is_bold := s.is_bold }]) ∧
    ∀ b : Bool,
      (step { s with in_pre := b } (.tagClose "td")).current_row =
        s.current_row ++
          [{ text := pyStrip (String.join s.current_cell),
             is_bold := s.is_bold }] :=
  ⟨rfl, fun _ => rfl⟩

/-- Claim C5, counterexample: in
`<table><tr><td><pre> x </td></tr></table>` the cell closes while
preformatted mode is active (the state just before `</td>` has
`in_pre = true` and data chunk `" x "`), yet the stored cell text is the
trimmed `"x"`, not the preserved `" x "`. -/
theorem c5_counterexample :
    (feed initState (preCellEvents.take 5)).in_pre = true ∧
    (feed initState (preCellEvents.take 5)).current_cell = [" x "] ∧
    (parse preCellEvents).table_data =
      [[{ text := "x", is_bold := false }]] ∧
    ("x" : String) ≠ " x " :=
  ⟨rfl, rfl, rfl, by decide⟩

/-- Claim C8, amended: the route's `except` clause answers every exception
with HTTP 500 whose JSON body carries the fixed generic string together
with a `details` field equal to the exception's own message — the internal
exception text is included in the response, not kept opaque (only the
stack trace is omitted). -/
theorem c8_exception_message_in_response (m : String) :
    exception_response m =
      HttpResponse.json 500
        [("error", "Failed to generate PDF"), ("details", m)] ∧
    ("details", m) ∈ body_of (exception_response m) ∧
    status_of (exception_response m) = 500 := by
  refine ⟨rfl, ?_, rfl⟩
  simp [exception_response, body_of]

/-- Claim C8, counterexample: for `<table></table>` the error response's
body contains the raised exception's message verbatim in its `details`
field — refuting that the response holds only a generic failure
indication. -/
theorem c8_counterexample :
    ("details", "No table data found in HTML") ∈
      body_of (generate_pdf (some "<table></table>") emptyTableEvents) := by
  decide

/-- Claim C6: a row that closes with zero accumulated cells is silently
discarded (the state is otherwise updated, never an error), a row with
cells is appended at the end of `table_data` — so rows appear in the model
in the order of their row-close events; cells are appended at the end of
`current_row` — so each row's cells keep source order; and a run can only
ever extend the collected rows, never reorder or remove them. -/
theorem c6_rows_in_order :
    (∀ s : ParserState, (step s (.tagClose "tr")).table_data =
        if s.current_row = [] then s.table_data
        else s.table_data ++ [s.current_row]) ∧
    (∀ s : ParserState, (step s (.tagClose "td")).current_row =
        s.current_row ++
          [{ text := pyStrip (String.join s.current_cell),
             is_bold := s.is_bold }]) ∧
    (∀ (s : ParserState) (evs : List HtmlEvent),
        ∃ t, (feed s evs).table_data = s.table_data ++ t) :=
  ⟨fun _ => rfl, fun _ => rfl, table_data_mono_feed⟩

/-- Claim C7: for every successfully parsed table model the built layout
uses the A-series A4 page with 2 cm margins on all four sides, the two
fixed column widths 6 cm and 11 cm — about 35% and 65% of the usable
width 21 - 2 - 2 = 17 cm, within one percentage point — held in the single
table-wide `colWidths` list applied to every row, and each cell gets the
bold/header style exactly when its emphasis flag is true. -/
theorem c7_layout_geometry (evs : List HtmlEvent)
    (h : (parse evs).table_data ≠ []) :
    create_pdf_from_table evs =
        Except.ok (mkLayout (parse evs).table_data) ∧
    (mkLayout (parse evs).table_data).pagesize = A4 ∧
    (mkLayout (parse evs).table_data).leftMargin = 2 ∧
    (mkLayout (parse evs).table_data).rightMargin = 2 ∧
    (mkLayout (parse evs).table_data).topMargin = 2 ∧
    (mkLayout (parse evs).table_data).bottomMargin = 2 ∧
    (mkLayout (parse evs).table_data).colWidths = [6, 11] ∧
    |6 / (A4.1 - 2 - 2) - 35 / 100| < 1 / 100 ∧
    |11 / (A4.1 - 2 - 2) - 65 / 100| < 1 / 100 ∧
    (mkLayout (parse evs).table_data).rows =
      (parse evs).table_data.map (fun row => row.map build_cell) ∧
    (∀ c : Cell, (build_cell c).style = header_style ↔ c.is_bold = true) := by
  refine ⟨?_, rfl, rfl, rfl, rfl, rfl, rfl, ?_, ?_, rfl, ?_⟩
  · simp [create_pdf_from_table, h]
  · rw [show (A4.1 - 2 - 2 : ℚ) = 17 by norm_num [A4], abs_lt]
    constructor <;> norm_num
  · rw [show (A4.1 - 2 - 2 : ℚ) = 17 by norm_num [A4], abs_lt]
    constructor <;> norm_num
  · intro c
    cases hc : c.is_bold <;>
      simp [build_cell, hc, header_style, normal_style]

/-- Claim C7, witness: the layout equation applied to
`<table><tr><td>key</td><td>value</td></tr></table>`. -/
theorem c7_witness :
    create_pdf_from_table simpleEvents =
      Except.ok (mkLayout (parse simpleEvents).table_data) :=
  (c7_layout_geometry simpleEvents (by decide)).1

/-- Claim C9: any properly closed table containing a row with at least one
properly closed cell — even a completely empty `<td></td>` — parses to a
non-empty model, so the conversion succeeds and the no-table-data error is
not raised. -/
theorem c9_empty_cell_row_counts (t : List (List (List Inline)))
    (h : ∃ r ∈ t, r ≠ []) :
    (parse (tableEvents t)).table_data ≠ [] ∧
    ∃ L, create_pdf_from_table (tableEvents t) = Except.ok L := by
  have h1 : parse (tableEvents t) =
      step (feed (step initState (.tagOpen "table"))
        ((t.map rowEvents).flatten)) (.tagClose "table") := by
    show feed (step initState (.tagOpen "table"))
        ((t.map rowEvents).flatten ++ [.tagClose "table"]) = _
    rw [feed_append]; rfl
  have h2 : (parse (tableEvents t)).table_data =
      (feed (step initState (.tagOpen "table"))
        ((t.map rowEvents).flatten)).table_data := by
    rw [h1]; rfl
  have h3 := feed_rows_nonempty (step initState (.tagOpen "table")) t h
  have hne : (parse (tableEvents t)).table_data ≠ [] := by
    rw [h2]; exact h3
  exact ⟨hne, ⟨mkLayout (parse (tableEvents t)).table_data,
    by simp [create_pdf_from_table, hne]⟩⟩

/-- Claim C9, witness: the theorem applied to the one-row, one-empty-cell
table `<table><tr><td></td></tr></table>`. -/
theorem c9_witness :
    (parse (tableEvents [[[]]])).table_data ≠ [] ∧
    ∃ L, create_pdf_from_table (tableEvents [[[]]]) = Except.ok L :=
  c9_empty_cell_row_counts [[[]]] (by decide)

/-- Claim C10: text data arriving while no cell is open leaves the parser
state completely unchanged, so it can never appear in any cell of the
resulting table model. -/
theorem c10_data_outside_cell_ignored (s : ParserState) (d : String)
    (h : s.in_cell = false) : step s (.text d) = s := by
  simp [step, handle_data, h]

/-- Claim C10, witness: stray text fed to the fresh parser is a no-op. -/
theorem c10_witness : step initState (.text "orphan") = initState :=
  c10_data_outside_cell_ignored initState "orphan" rfl

end PdfApi
